import Mathlib

/-!
Shallow embedding of the parallel-webpack build worker
(source file: src/webpackWorker.js) together with theorems that settle
the frozen specification claims.

The worker is modelled as pure Lean functions:
the configuration artifact handed back by the configuration loader is an
explicit inductive value (plain record, promise wrapper, or array);
the observable effects of the worker (console lines, the done callback,
listener removal, the readiness notification, watcher close, process
exit) are recorded as an explicit trace of actions.  Chalk color wrappers
only decorate text with terminal escape codes, which no claim inspects,
so they are modelled as the identity on the wrapped text.
-/

namespace WebpackWorker

/-- chalk.red: terminal color decoration, modelled as identity on the text. -/
def chalkRed (s : String) : String := s

/-- chalk.yellow: terminal color decoration, modelled as identity on the text. -/
def chalkYellow (s : String) : String := s

/-- chalk.blue: terminal color decoration, modelled as identity on the text. -/
def chalkBlue (s : String) : String := s

/-- Occurrence of a pattern as a contiguous run inside a character list.
Models the JS test on appName.indexOf applied with bitwise not, which is
truthy exactly when the pattern occurs in the string. -/
def containsSubList (pat : List Char) : List Char → Bool
  | [] => pat.isEmpty
  | c :: cs => pat.isPrefixOf (c :: cs) || containsSubList pat cs

/-- String-level wrapper for occurrence of a substring. -/
def containsSub (s pat : String) : Bool :=
  containsSubList pat.data s.data

/-- Fuel-driven left-to-right, non-overlapping replacement of every
occurrence of a pattern, on character lists.  The fuel is the length of
the subject, which suffices because each step consumes at least one
character of the subject when the pattern is nonempty. -/
def replaceListAux : Nat → List Char → List Char → List Char → List Char
  | 0, _, _, s => s
  | _ + 1, _, _, [] => []
  | fuel + 1, pat, repl, c :: cs =>
      if !pat.isEmpty && pat.isPrefixOf (c :: cs) then
        repl ++ replaceListAux fuel pat repl ((c :: cs).drop pat.length)
      else
        c :: replaceListAux fuel pat repl cs

/-- Global string replacement: models the JS String.replace with a global
regular expression matching the literal pattern. -/
def replaceAll (s pat repl : String) : String :=
  ⟨replaceListAux s.data.length pat.data repl.data s.data⟩

/-- The output settings of a configuration record (only the filename
template participates in the behavior of the worker). -/
structure OutputSettings where
  filename : String
deriving Repr, DecidableEq

/-- The entry field of a configuration record: either a bare string or an
object mapping entry-point names to sources.  Only the ordered key list
of the object participates in the behavior of the worker. -/
inductive EntryValue where
  | str (value : String)
  | obj (keys : List String)
deriving Repr, DecidableEq

/-- A bag of statistics-formatting options.  An absent field corresponds
to the JS value undefined. -/
structure StatsOptions where
  modulesSort : Option String := none
  chunksSort : Option String := none
  assetsSort : Option String := none
  exclude : Option String := none
  colors : Option Bool := none
deriving Repr, DecidableEq

/-- A single webpack configuration record, restricted to the fields the
worker reads. -/
structure WebpackConfig where
  name : Option String := none
  output : OutputSettings
  entry : Option EntryValue := none
  stats : StatsOptions := {}
deriving Repr, DecidableEq

/-- The build options bag passed to the worker.  The argv override is a
process-global effect no claim touches and is not modelled. -/
structure BuildOptions where
  watch : Bool := false
  json : Bool := false
  stats : Bool := false
  colors : Option Bool := none
  modulesSort : Option String := none
  chunksSort : Option String := none
  assetsSort : Option String := none
  exclude : Option String := none
deriving Repr, DecidableEq

/-- JS logical-or between the name property and the filename template:
undefined and the empty string are both falsy. -/
def jsNameOr (name : Option String) (fallback : String) : String :=
  match name with
  | some s => if s = "" then fallback else s
  | none => fallback

/-- Translation of getAppName (source lines 19 to 29): prefer the
configuration name, else the output filename template; when the chosen
string mentions the name placeholder and the entry field is an object
with exactly one key, substitute that key for every occurrence of the
placeholder. -/
def getAppName (webpackConfig : WebpackConfig) : String :=
  let appName := jsNameOr webpackConfig.name webpackConfig.output.filename
  match webpackConfig.entry with
  | some (EntryValue.obj entryNames) =>
      if containsSub appName "[name]" && entryNames.length == 1 then
        replaceAll appName "[name]" (entryNames.headD "")
      else
        appName
  | _ => appName

/-- Translation of getOutputOptions (source lines 31 to 49): start from a
copy of the stats bag of the configuration itself and overwrite, field by field,
each of the five recognized options that is defined in the build
options. -/
def getOutputOptions (webpackConfig : WebpackConfig) (options : BuildOptions) : StatsOptions :=
  let o0 := webpackConfig.stats
  let o1 := match options.modulesSort with
    | some v => { o0 with modulesSort := some v }
    | none => o0
  let o2 := match options.chunksSort with
    | some v => { o1 with chunksSort := some v }
    | none => o1
  let o3 := match options.assetsSort with
    | some v => { o2 with assetsSort := some v }
    | none => o2
  let o4 := match options.exclude with
    | some v => { o3 with exclude := some v }
    | none => o3
  match options.colors with
    | some v => { o4 with colors := some v }
    | none => o4

/-- The configuration artifact produced by the configuration loader: a
plain configuration record, a promise-like deferred value, or an array
of artifacts. -/
inductive ConfigArtifact where
  | plain (config : WebpackConfig)
  | deferred (inner : ConfigArtifact)
  | collection (items : List ConfigArtifact)

/-- Array.isArray on the artifact. -/
def isArray : ConfigArtifact → Bool
  | .collection _ => true
  | _ => false

/-- JS property read config.length: an array exposes its length, every
other artifact (a plain configuration record or a promise) yields
undefined, modelled as none. -/
def jsLength : ConfigArtifact → Option Nat
  | .collection items => some items.length
  | _ => none

/-- Promise.resolve: a promise chain resolves to its innermost value, a
plain value resolves to itself. -/
def resolveArtifact : ConfigArtifact → ConfigArtifact
  | .deferred inner => resolveArtifact inner
  | .plain c => .plain c
  | .collection items => .collection items

/-- Index selection (source lines 91 to 93): an array is replaced by its
element at the given index (undefined, modelled as none, when out of
range); any other artifact is kept as is. -/
def selectConfig (config : ConfigArtifact) (index : Nat) : Option ConfigArtifact :=
  match config with
  | .collection items => items.get? index
  | other => some other

/-- The descriptive error message emitted on a configuration count
mismatch (source lines 82 to 86). -/
def configCountMismatchMessage : String :=
  "[WEBPACK] There is a difference between the amount of the" ++
  " provided configs. Maybe you where expecting command line" ++
  " arguments to be passed to your webpack.config.js. If so," ++
  " you\x27ll need to separate them with a -- from the parallel-webpack options."

/-- Outcome of the validation and selection phase of the worker: either
the rejected promise carrying the mismatch message (the compiler is then
never constructed), or the value the compilation phase receives, namely
the selected artifact after Promise.resolve (none models undefined from
an out-of-range index). -/
inductive SetupResult where
  | rejected (message : String)
  | compile (webpackConfig : Option ConfigArtifact)

/-- Translation of the validation, selection and resolution steps of the
worker body (source lines 77 to 94), including the nested count test
exactly as written. -/
def runBuildSetup (config : ConfigArtifact) (index expectedConfigLength : Nat) : SetupResult :=
  let continueRun : SetupResult :=
    .compile ((selectConfig config index).map resolveArtifact)
  if (expectedConfigLength != 1 && !isArray config) ||
      (isArray config && jsLength config != some expectedConfigLength) then
    if jsLength config != some expectedConfigLength then
      .rejected configCountMismatchMessage
    else
      continueRun
  else
    continueRun

/-- The statistics object the compiler hands to the per-compile callback.
compilationErrors lists the message fields of stats.compilation.errors.
toJson models the serialized JSON document, the composition of
JSON.stringify with stats.toJson at the given output options; toDisplay
models stats.toString at the given output options. -/
structure Stats where
  compilationErrors : List String := []
  startTime : Nat := 0
  endTime : Nat := 0
  toJson : StatsOptions → String
  toDisplay : StatsOptions → String

/-- The immutable data the worker closes over once the configuration has
resolved.  timeOfDay models the wall-clock time string used only in the
watch-mode log line. -/
structure WorkerEnv where
  options : BuildOptions
  webpackConfig : WebpackConfig
  index : Nat
  timeOfDay : String := ""

/-- The values delivered through the done callback. -/
inductive DoneValue where
  | fatal (err : String)
  | errorReport (message : String) (stats : String)
  | success (output : String)
  | forcedShutdown (message : String)
deriving Repr, DecidableEq

/-- Observable actions of the worker, recorded in order. -/
inductive Action where
  | consoleError (line : String)
  | consoleLog (line : String)
  | removeSigintListener
  | callDone (value : DoneValue)
  | notifyIPCWatchCompileDone (index : Nat)
  | watcherClose
  | processExit (code : Nat)
deriving Repr, DecidableEq

/-- The fatal-error line written to the error stream (source line 114,
with the printf placeholder substituted). -/
def fatalErrorLine : String :=
  chalkRed "[WEBPACK]" ++ " fatal error occured"

/-- The composite compile-error message (source lines 120 to 129): header
naming the application followed by every individual error message joined
with newlines. -/
def compositeErrorMessage (webpackConfig : WebpackConfig) (errorMessages : List String) : String :=
  chalkRed "[WEBPACK]" ++ " Errors building " ++ chalkYellow (getAppName webpackConfig) ++
    "\x0a" ++ String.intercalate "\x0a" errorMessages

/-- The time-stamp fragment of the finished line: present only in watch
mode (source lines 148 to 151). -/
def watchTimeStamp (watch : Bool) (timeOfDay : String) : String :=
  if watch then " " ++ chalkYellow timeOfDay else ""

/-- Display of (endTime - startTime) / 1000.  The JS code prints a float;
the exact decimal rendering is log-only and no claim inspects it, so the
model prints whole seconds and the millisecond remainder. -/
def elapsedSecondsDisplay (stats : Stats) : String :=
  let d := stats.endTime - stats.startTime
  toString (d / 1000) ++ "." ++ toString (d % 1000)

/-- The success summary line (source lines 152 to 157, with the printf
placeholders substituted). -/
def finishedLine (env : WorkerEnv) (stats : Stats) : String :=
  chalkBlue ("[WEBPACK" ++ watchTimeStamp env.options.watch env.timeOfDay ++ "]") ++
    " Finished building " ++ chalkYellow (getAppName env.webpackConfig) ++
    " within " ++ chalkBlue (elapsedSecondsDisplay stats) ++ " seconds"

/-- The start line (source lines 173 to 178, with the printf placeholders
substituted). -/
def startedLine (env : WorkerEnv) : String :=
  chalkBlue "[WEBPACK]" ++ " Started " ++
    (if env.options.watch then "watching" else "building") ++
    " " ++ chalkYellow (getAppName env.webpackConfig)

/-- The logging performed right before the compiler is constructed
(source lines 172 to 179): the start line, suppressed in silent mode. -/
def compilePhaseActions (env : WorkerEnv) : List Action :=
  if env.options.json then [] else [Action.consoleLog (startedLine env)]

/-- The forced-shutdown message (source lines 104 to 109). -/
def forcedShutdownMessage (webpackConfig : WebpackConfig) : String :=
  chalkRed "[WEBPACK]" ++ " Forcefully shut down " ++
    chalkYellow (getAppName webpackConfig)

/-- Translation of shutdownCallback (source lines 100 to 111): when a
watcher is active it is closed first, with the done callback passed as
the close completion callback; then done is invoked with the
forced-shutdown message and the process exits with code 0. -/
def shutdownCallback (env : WorkerEnv) (watcherActive : Bool) : List Action :=
  (if watcherActive then [Action.watcherClose] else []) ++
  [Action.callDone (DoneValue.forcedShutdown (forcedShutdownMessage env.webpackConfig)),
   Action.processExit 0]

/-- The block guarded by the silent flag in the per-compile callback
(source lines 144 to 158): optional full statistics followed by the
summary line. -/
def successActions (env : WorkerEnv) (stats : Stats) : List Action :=
  if env.options.json then [] else
    (if env.options.stats then
        [Action.consoleLog (stats.toDisplay (getOutputOptions env.webpackConfig env.options))]
      else []) ++
    [Action.consoleLog (finishedLine env stats)]

/-- The tail of the per-compile callback (source lines 144 to 170): the
silent-guarded logging followed by the one-shot completion or the
watch-mode first-compile notification.  The returned flag is the updated
hasCompletedOneCompile state. -/
def finishedTail (env : WorkerEnv) (hasCompletedOneCompile : Bool) (stats : Stats) :
    List Action × Bool :=
  let logActions := successActions env stats
  if !env.options.watch then
    (logActions ++
      [Action.removeSigintListener,
       Action.callDone (DoneValue.success
         (if env.options.stats then
            stats.toJson (getOutputOptions env.webpackConfig env.options)
          else ""))],
     hasCompletedOneCompile)
  else if !hasCompletedOneCompile then
    (logActions ++ [Action.notifyIPCWatchCompileDone env.index], true)
  else
    (logActions, hasCompletedOneCompile)

/-- Translation of finishedCallback (source lines 112 to 171), the
per-compile completion callback.  A fatal error logs and completes; a
compile error in one-shot mode completes with the composite message and
the serialized statistics; a compile error in watch mode logs the
composite message and falls through to the tail, exactly as the source
does; otherwise the tail runs directly. -/
def finishedCallback (env : WorkerEnv) (hasCompletedOneCompile : Bool)
    (err : Option String) (stats : Stats) : List Action × Bool :=
  match err with
  | some e =>
      ([Action.consoleError fatalErrorLine, Action.consoleError e,
        Action.removeSigintListener, Action.callDone (DoneValue.fatal e)],
       hasCompletedOneCompile)
  | none =>
      if stats.compilationErrors.length != 0 then
        let message := compositeErrorMessage env.webpackConfig stats.compilationErrors
        if env.options.watch then
          let tail := finishedTail env hasCompletedOneCompile stats
          (Action.consoleLog message :: tail.1, tail.2)
        else
          ([Action.removeSigintListener,
            Action.callDone (DoneValue.errorReport message
              (stats.toJson (getOutputOptions env.webpackConfig env.options)))],
           hasCompletedOneCompile)
      else
        finishedTail env hasCompletedOneCompile stats

/-- A watch-mode run: the watcher delivers a sequence of per-compile
results, each processed by finishedCallback with the
hasCompletedOneCompile flag threaded through. -/
def runWatch (env : WorkerEnv) (hasCompletedOneCompile : Bool) :
    List (Option String × Stats) → List Action
  | [] => []
  | (err, stats) :: rest =>
      let step := finishedCallback env hasCompletedOneCompile err stats
      step.1 ++ runWatch env step.2 rest

/-- Number of done-callback invocations in a trace. -/
def countDone (trace : List Action) : Nat :=
  trace.countP fun a => match a with | Action.callDone _ => true | _ => false

/-- Number of interrupt-listener removals in a trace. -/
def countRemove (trace : List Action) : Nat :=
  trace.countP fun a => match a with | Action.removeSigintListener => true | _ => false

/-- Number of readiness notifications in a trace. -/
def countNotify (trace : List Action) : Nat :=
  trace.countP fun a => match a with | Action.notifyIPCWatchCompileDone _ => true | _ => false

/-- Number of standard-output lines in a trace. -/
def countLog (trace : List Action) : Nat :=
  trace.countP fun a => match a with | Action.consoleLog _ => true | _ => false

/-- Number of error-stream lines in a trace. -/
def countErrLog (trace : List Action) : Nat :=
  trace.countP fun a => match a with | Action.consoleError _ => true | _ => false

/-! Concrete fixtures used by witnesses and counterexamples. -/

/-- A minimal configuration record. -/
def cfg0 : WebpackConfig := { output := { filename := "bundle.js" } }

/-- A statistics object of a clean compile. -/
def okStats : Stats :=
  { compilationErrors := [], toJson := fun _ => "", toDisplay := fun _ => "" }

/-- A statistics object reporting one compilation error, with a nonempty
serialized form. -/
def erroredStats : Stats :=
  { compilationErrors := ["something failed"],
    toJson := fun _ => "SERIALIZED", toDisplay := fun _ => "DISPLAY" }

/-- A configuration with one entry point and a placeholder template. -/
def cfgMain : WebpackConfig :=
  { name := none
    output := { filename := "[name].bundle.js" }
    entry := some (.obj ["main"]) }

/-- A configuration with an explicit name and two entry points. -/
def cfgNamed : WebpackConfig :=
  { name := some "fancyApp"
    output := { filename := "[name].bundle.js" }
    entry := some (.obj ["main", "admin"]) }

/-- A none jsLength characterizes every non-array artifact. -/
theorem jsLength_eq_none_of_not_array (config : ConfigArtifact)
    (h : isArray config = false) : jsLength config = none := by
  cases config <;> simp_all [isArray, jsLength]

/-- C3: a collection artifact whose length differs from the expected
count makes the worker reject with the descriptive mismatch message
before any compilation starts; the rejected outcome never constructs the
compiler. -/
theorem C3_collection_count_mismatch (items : List ConfigArtifact)
    (index expectedConfigLength : Nat) (h : items.length ≠ expectedConfigLength) :
    runBuildSetup (.collection items) index expectedConfigLength =
      .rejected configCountMismatchMessage := by
  simp [runBuildSetup, isArray, jsLength, h]

/-- C3 witness: a one-element collection against an expected count of
two is rejected. -/
theorem C3_witness :
    ([ConfigArtifact.plain cfg0].length ≠ 2) ∧
    runBuildSetup (.collection [.plain cfg0]) 0 2 =
      .rejected configCountMismatchMessage :=
  ⟨by decide, C3_collection_count_mismatch [.plain cfg0] 0 2 (by decide)⟩

/-- C4: a non-array artifact with an expected count different from one
makes the worker reject before the compiler is ever invoked. -/
theorem C4_single_requires_count_one (config : ConfigArtifact)
    (index expectedConfigLength : Nat) (hna : isArray config = false)
    (hne : expectedConfigLength ≠ 1) :
    runBuildSetup config index expectedConfigLength =
      .rejected configCountMismatchMessage := by
  have hlen := jsLength_eq_none_of_not_array config hna
  simp [runBuildSetup, hna, hlen, hne]

/-- C4 witness: a plain configuration record against an expected count
of three is rejected. -/
theorem C4_witness :
    isArray (ConfigArtifact.plain cfg0) = false ∧ (3 : Nat) ≠ 1 ∧
    runBuildSetup (.plain cfg0) 0 3 = .rejected configCountMismatchMessage :=
  ⟨rfl, by decide, C4_single_requires_count_one (.plain cfg0) 0 3 rfl (by decide)⟩

/-- C10: a deferred artifact is validated as a single non-collection
value before it is resolved: whenever the expected count is not one it
is rejected, whatever the deferred would resolve to (including a
collection of the expected length); when the expected count is one, the
deferred is never indexed and only the already-selected value, the whole
deferred itself, is resolved before compilation proceeds. -/
theorem C10_deferred_validated_before_resolution (inner : ConfigArtifact)
    (index expectedConfigLength : Nat) :
    runBuildSetup (.deferred inner) index expectedConfigLength =
      if expectedConfigLength = 1 then .compile (some (resolveArtifact inner))
      else .rejected configCountMismatchMessage := by
  by_cases h : expectedConfigLength = 1 <;>
    simp [runBuildSetup, isArray, jsLength, selectConfig, resolveArtifact, h]

/-- C5: display-name derivation.  The explicit configuration name is
preferred and the output filename template is the fallback; when the
chosen string mentions the name placeholder and the entry object has
exactly one key, that key is substituted for the placeholder; with two
or more entry points the chosen string is returned unchanged.  In
particular the single entry point main with template [name].bundle.js
yields main.bundle.js. -/
theorem C5_display_name (c : WebpackConfig) (n k : String) (keys : List String) :
    (c.name = some n → n ≠ "" → containsSub n "[name]" = false → getAppName c = n) ∧
    (c.name = none → containsSub c.output.filename "[name]" = false →
        getAppName c = c.output.filename) ∧
    (c.name = none → c.entry = some (.obj [k]) →
        containsSub c.output.filename "[name]" = true →
        getAppName c = replaceAll c.output.filename "[name]" k) ∧
    (c.name = some n → n ≠ "" → c.entry = some (.obj [k]) →
        containsSub n "[name]" = true → getAppName c = replaceAll n "[name]" k) ∧
    (c.name = none → c.entry = some (.obj keys) → 2 ≤ keys.length →
        getAppName c = c.output.filename) ∧
    getAppName cfgMain = "main.bundle.js" := by
  refine ⟨?_, ?_, ?_, ?_, ?_, by rfl⟩
  · intro h1 h2 h3
    cases hE : c.entry with
    | none => simp [getAppName, jsNameOr, h1, h2, hE]
    | some ev =>
        cases ev with
        | str v => simp [getAppName, jsNameOr, h1, h2, hE]
        | obj ks => simp [getAppName, jsNameOr, h1, h2, hE, h3]
  · intro h1 h3
    cases hE : c.entry with
    | none => simp [getAppName, jsNameOr, h1, hE]
    | some ev =>
        cases ev with
        | str v => simp [getAppName, jsNameOr, h1, hE]
        | obj ks => simp [getAppName, jsNameOr, h1, hE, h3]
  · intro h1 h2 h3
    simp [getAppName, jsNameOr, h1, h2, h3]
  · intro h1 h2 h3 h4
    simp [getAppName, jsNameOr, h1, h2, h3, h4]
  · intro h1 h2 h3
    have hk : (keys.length == 1) = false := by
      simp only [beq_eq_false_iff_ne, ne_eq]
      omega
    simp [getAppName, jsNameOr, h1, h2, hk]

/-- C5 witness: the explicit-name conjunct at a concrete two-entry
configuration and the substitution conjunct at the concrete single-entry
configuration of the claim. -/
theorem C5_witness :
    getAppName cfgNamed = "fancyApp" ∧
    getAppName cfgMain = replaceAll "[name].bundle.js" "[name]" "main" :=
  ⟨(C5_display_name cfgNamed "fancyApp" "" []).1 rfl (by decide) rfl,
   (C5_display_name cfgMain "" "main" []).2.2.1 rfl rfl rfl⟩

/-- A configuration whose own stats set only colors to true. -/
def cfgStatsColors : WebpackConfig :=
  { output := { filename := "bundle.js" }
    stats := { colors := some true } }

/-- Options overriding colors to false and setting an exclude pattern. -/
def optsOverride : BuildOptions :=
  { colors := some false, exclude := some "node_modules" }

/-- C6: the output statistics options are a field-by-field merge in which
each defined option field overrides the stats field of the configuration itself
and each absent option field leaves the configuration default untouched;
in particular stats colors true merged with options colors false and
exclude node_modules yields colors false and exclude node_modules. -/
theorem C6_output_options_merge (webpackConfig : WebpackConfig) (options : BuildOptions) :
    ((getOutputOptions webpackConfig options).modulesSort =
      match options.modulesSort with
      | some v => some v
      | none => webpackConfig.stats.modulesSort) ∧
    ((getOutputOptions webpackConfig options).chunksSort =
      match options.chunksSort with
      | some v => some v
      | none => webpackConfig.stats.chunksSort) ∧
    ((getOutputOptions webpackConfig options).assetsSort =
      match options.assetsSort with
      | some v => some v
      | none => webpackConfig.stats.assetsSort) ∧
    ((getOutputOptions webpackConfig options).exclude =
      match options.exclude with
      | some v => some v
      | none => webpackConfig.stats.exclude) ∧
    ((getOutputOptions webpackConfig options).colors =
      match options.colors with
      | some v => some v
      | none => webpackConfig.stats.colors) ∧
    getOutputOptions cfgStatsColors optsOverride =
      { exclude := some "node_modules", colors := some false } := by
  refine ⟨?_, ?_, ?_, ?_, ?_, by rfl⟩ <;>
    rcases options with ⟨w, j, st, co, ms, cs, asrt, ex⟩ <;>
      cases ms <;> cases cs <;> cases asrt <;> cases ex <;> cases co <;> rfl

/-- C8: on an interrupt with an active watcher, the watcher close (whose
completion callback is the done callback itself) precedes the done
invocation carrying the forced-shutdown message, and the process then
exits with code 0; without an active watcher the done invocation and the
exit still happen unconditionally. -/
theorem C8_forced_shutdown_order (env : WorkerEnv) :
    shutdownCallback env true =
      [Action.watcherClose,
       Action.callDone (DoneValue.forcedShutdown (forcedShutdownMessage env.webpackConfig)),
       Action.processExit 0] ∧
    shutdownCallback env false =
      [Action.callDone (DoneValue.forcedShutdown (forcedShutdownMessage env.webpackConfig)),
       Action.processExit 0] :=
  ⟨rfl, rfl⟩

/-- The silent-guarded logging block is empty in silent mode. -/
theorem successActions_silent (env : WorkerEnv) (stats : Stats)
    (hs : env.options.json = true) : successActions env stats = [] := by
  simp [successActions, hs]

/-- The silent-guarded logging block never invokes the done callback. -/
theorem countDone_successActions (env : WorkerEnv) (stats : Stats) :
    countDone (successActions env stats) = 0 := by
  unfold successActions countDone
  by_cases hj : env.options.json <;> by_cases hst : env.options.stats <;>
    simp [hj, hst, List.countP_cons, List.countP_nil, List.countP_append]

/-- The silent-guarded logging block never removes the interrupt
listener. -/
theorem countRemove_successActions (env : WorkerEnv) (stats : Stats) :
    countRemove (successActions env stats) = 0 := by
  unfold successActions countRemove
  by_cases hj : env.options.json <;> by_cases hst : env.options.stats <;>
    simp [hj, hst, List.countP_cons, List.countP_nil, List.countP_append]

/-- The silent-guarded logging block never notifies readiness. -/
theorem countNotify_successActions (env : WorkerEnv) (stats : Stats) :
    countNotify (successActions env stats) = 0 := by
  unfold successActions countNotify
  by_cases hj : env.options.json <;> by_cases hst : env.options.stats <;>
    simp [hj, hst, List.countP_cons, List.countP_nil, List.countP_append]

/-- An environment for one-shot runs with all options at their
defaults. -/
def envOneShot : WorkerEnv :=
  { options := {}, webpackConfig := cfg0, index := 0 }

/-- C1: in one-shot mode every terminal outcome of the per-compile
callback, be it success, compile error or fatal error, produces exactly
one done invocation, and the interrupt-listener removal is the action
immediately preceding it. -/
theorem C1_one_shot_single_done (env : WorkerEnv) (b : Bool) (err : Option String)
    (stats : Stats) (hw : env.options.watch = false) :
    ∃ pre v, (finishedCallback env b err stats).1 =
        pre ++ [Action.removeSigintListener, Action.callDone v] ∧
      countDone pre = 0 ∧ countRemove pre = 0 := by
  cases err with
  | some e =>
      exact ⟨[Action.consoleError fatalErrorLine, Action.consoleError e],
        DoneValue.fatal e, rfl, rfl, rfl⟩
  | none =>
      by_cases hE : stats.compilationErrors.length = 0
      · refine ⟨successActions env stats,
          DoneValue.success (if env.options.stats then
            stats.toJson (getOutputOptions env.webpackConfig env.options) else ""),
          ?_, countDone_successActions env stats, countRemove_successActions env stats⟩
        simp [finishedCallback, finishedTail, hE, hw]
      · refine ⟨[], DoneValue.errorReport
            (compositeErrorMessage env.webpackConfig stats.compilationErrors)
            (stats.toJson (getOutputOptions env.webpackConfig env.options)), ?_, rfl, rfl⟩
        simp [finishedCallback, hE, hw]

/-- C1 witness: a clean one-shot compile ends in the listener removal
followed by the single done invocation. -/
theorem C1_witness :
    envOneShot.options.watch = false ∧
    ∃ pre v, (finishedCallback envOneShot false none okStats).1 =
        pre ++ [Action.removeSigintListener, Action.callDone v] ∧
      countDone pre = 0 ∧ countRemove pre = 0 :=
  ⟨rfl, C1_one_shot_single_done envOneShot false none okStats rfl⟩

/-- A fatal error never notifies readiness and leaves the
first-compile flag untouched. -/
theorem finishedCallback_fatal_notify (env : WorkerEnv) (b : Bool) (e : String)
    (stats : Stats) :
    countNotify (finishedCallback env b (some e) stats).1 = 0 ∧
      (finishedCallback env b (some e) stats).2 = b :=
  ⟨rfl, rfl⟩

/-- In watch mode a non-fatal compile always leaves the first-compile
flag set, and notifies readiness exactly when the flag was still
clear. -/
theorem finishedCallback_watch_notify (env : WorkerEnv) (b : Bool) (stats : Stats)
    (hw : env.options.watch = true) :
    countNotify (finishedCallback env b none stats).1 = (if b then 0 else 1) ∧
      (finishedCallback env b none stats).2 = true := by
  have hn := countNotify_successActions env stats
  simp only [countNotify] at hn ⊢
  by_cases hE : stats.compilationErrors.length = 0 <;> cases b <;>
    constructor <;>
      simp [finishedCallback, finishedTail, hw, hE,
        List.countP_cons, List.countP_append, hn]

/-- Once the first-compile flag is set, a watch-mode run never notifies
again. -/
theorem runWatch_notify_done (env : WorkerEnv) (hw : env.options.watch = true) :
    ∀ results : List (Option String × Stats),
      countNotify (runWatch env true results) = 0 := by
  intro results
  induction results with
  | nil => rfl
  | cons r rest ih =>
      obtain ⟨err, stats⟩ := r
      cases err with
      | some e =>
          have h := finishedCallback_fatal_notify env true e stats
          have h1 := h.1
          simp only [countNotify] at h1 ih ⊢
          simp [runWatch, List.countP_append, h.2, h1, ih]
      | none =>
          have h := finishedCallback_watch_notify env true stats hw
          have h1 := h.1
          simp only [if_pos, if_true] at h1
          simp only [countNotify] at h1 ih ⊢
          simp [runWatch, List.countP_append, h.2, h1, ih]

/-- C2 (amended): in watch mode the readiness notification fires exactly
once, on the first per-compile callback that reports no fatal error,
even when that compile produced only compilation errors; it never fires
on subsequent callbacks and never fires when every callback reported a
fatal error (in particular not in the fatal-only prefix). -/
theorem C2_watch_notify (env : WorkerEnv) (results : List (Option String × Stats))
    (hw : env.options.watch = true) :
    countNotify (runWatch env false results) =
      (if results.any (fun r => r.1.isNone) then 1 else 0) ∧
    countNotify (runWatch env false (results.takeWhile (fun r => r.1.isSome))) = 0 := by
  have main : ∀ rs : List (Option String × Stats),
      countNotify (runWatch env false rs) =
        (if rs.any (fun r => r.1.isNone) then 1 else 0) := by
    intro rs
    induction rs with
    | nil => rfl
    | cons r rest ih =>
        obtain ⟨err, stats⟩ := r
        cases err with
        | some e =>
            have h := finishedCallback_fatal_notify env false e stats
            have h1 := h.1
            simp only [countNotify] at h1 ih ⊢
            by_cases hA : (rest.any fun r => r.1.isNone) = true <;>
              simp [runWatch, List.countP_append, h.2, h1, ih, List.any_cons, hA]
        | none =>
            have h := finishedCallback_watch_notify env false stats hw
            have h1 := h.1
            simp only [if_neg, Bool.false_eq_true, if_false] at h1
            have hz := runWatch_notify_done env hw rest
            simp only [countNotify] at h1 hz ⊢
            simp [runWatch, List.countP_append, h.2, h1, hz, List.any_cons]
  refine ⟨main results, ?_⟩
  rw [main (results.takeWhile (fun r => r.1.isSome))]
  have : (results.takeWhile (fun r => r.1.isSome)).any (fun r => r.1.isNone) = false := by
    induction results with
    | nil => rfl
    | cons r rest ih =>
        cases hr : r.1 with
        | none => simp [List.takeWhile_cons, hr]
        | some v => simp [List.takeWhile_cons, hr, ih]
  simp [this]

/-- A watch-mode environment with silent output and configuration
index three. -/
def cexWatchEnv : WorkerEnv :=
  { options := { watch := true, json := true }, webpackConfig := cfg0, index := 3 }

/-- C2 counterexample: a watch-mode run whose only compile produced
nothing but compilation errors still fires the readiness
notification, because the compile-error branch falls through to the
notification block. -/
theorem C2_counterexample :
    erroredStats.compilationErrors = ["something failed"] ∧
    countNotify (runWatch cexWatchEnv false [(none, erroredStats)]) = 1 :=
  ⟨rfl, rfl⟩

/-- A watch-mode result sequence: one fatal compile, then two non-fatal
compiles, the first of which reports compilation errors. -/
def watchResults : List (Option String × Stats) :=
  [(some "boom", okStats), (none, erroredStats), (none, okStats)]

/-- C2 witness: on the concrete sequence the notification count matches
the first-non-fatal characterization and the fatal-only prefix never
notifies. -/
theorem C2_witness :
    countNotify (runWatch cexWatchEnv false watchResults) =
      (if watchResults.any (fun r => r.1.isNone) then 1 else 0) ∧
    countNotify (runWatch cexWatchEnv false
      (watchResults.takeWhile (fun r => r.1.isSome))) = 0 :=
  C2_watch_notify cexWatchEnv watchResults rfl

/-- A one-shot silent environment that does not request statistics. -/
def envNoStats : WorkerEnv :=
  { options := { json := true }, webpackConfig := cfg0, index := 0 }

/-- C7 counterexample: with options.stats not requested, the one-shot
compile-error payload nevertheless carries the serialized
statistics. -/
theorem C7_counterexample :
    envNoStats.options.stats = false ∧
    (finishedCallback envNoStats false none erroredStats).1 =
      [Action.removeSigintListener,
       Action.callDone (DoneValue.errorReport
         (compositeErrorMessage cfg0 ["something failed"]) "SERIALIZED")] :=
  ⟨rfl, rfl⟩

/-- C7 (amended): in one-shot mode a compile reporting errors removes
the interrupt listener and invokes done with the composite message and,
unconditionally, the serialized JSON statistics, whether or not
options.stats was requested. -/
theorem C7_one_shot_error_payload (env : WorkerEnv) (b : Bool) (stats : Stats)
    (hw : env.options.watch = false) (he : stats.compilationErrors ≠ []) :
    (finishedCallback env b none stats).1 =
      [Action.removeSigintListener,
       Action.callDone (DoneValue.errorReport
         (compositeErrorMessage env.webpackConfig stats.compilationErrors)
         (stats.toJson (getOutputOptions env.webpackConfig env.options)))] := by
  have hlen : stats.compilationErrors.length ≠ 0 := by
    simpa [List.length_eq_zero] using he
  simp [finishedCallback, hw, hlen]

/-- C7 witness: the amended payload at a concrete silent one-shot
environment with statistics not requested. -/
theorem C7_witness :
    (finishedCallback envNoStats true none erroredStats).1 =
      [Action.removeSigintListener,
       Action.callDone (DoneValue.errorReport
         (compositeErrorMessage envNoStats.webpackConfig erroredStats.compilationErrors)
         (erroredStats.toJson (getOutputOptions envNoStats.webpackConfig
            envNoStats.options)))] :=
  C7_one_shot_error_payload envNoStats true erroredStats rfl (by decide)

/-- C9 counterexample: in silent mode a fatal error still writes two
lines to the error stream. -/
theorem C9_counterexample :
    envNoStats.options.json = true ∧
    (finishedCallback envNoStats false (some "boom") okStats).1 =
      [Action.consoleError fatalErrorLine, Action.consoleError "boom",
       Action.removeSigintListener, Action.callDone (DoneValue.fatal "boom")] :=
  ⟨rfl, rfl⟩

/-- C9 (amended): the silent flag suppresses exactly the status lines,
namely the start message and the success logging (formatted statistics
and finished summary); fatal-error lines are written to the error stream
and the watch-mode compile-error message is written to the output stream
even in silent mode. -/
theorem C9_silent_gating (env : WorkerEnv) (b : Bool) (stats : Stats) (e : String)
    (hs : env.options.json = true) :
    compilePhaseActions env = [] ∧
    (stats.compilationErrors = [] →
        countLog (finishedCallback env b none stats).1 = 0 ∧
        countErrLog (finishedCallback env b none stats).1 = 0) ∧
    countErrLog (finishedCallback env b (some e) stats).1 = 2 ∧
    (env.options.watch = true → stats.compilationErrors ≠ [] →
        countLog (finishedCallback env b none stats).1 = 1) := by
  have hsa := successActions_silent env stats hs
  refine ⟨by simp [compilePhaseActions, hs], ?_, rfl, ?_⟩
  · intro h0
    have hE : stats.compilationErrors.length = 0 := by simp [h0]
    by_cases hw : env.options.watch <;> cases b <;>
      constructor <;>
        simp [finishedCallback, finishedTail, hE, hw, hsa, countLog, countErrLog,
          List.countP_cons, List.countP_append]
  · intro hw hne
    have hlen : stats.compilationErrors.length ≠ 0 := by
      simpa [List.length_eq_zero] using hne
    cases b <;>
      simp [finishedCallback, finishedTail, hlen, hw, hsa, countLog,
        List.countP_cons, List.countP_append]

/-- C9 witness: the amended gating at the concrete silent watch-mode
environment. -/
theorem C9_witness :
    compilePhaseActions cexWatchEnv = [] ∧
    countLog (finishedCallback cexWatchEnv false none okStats).1 = 0 ∧
    countLog (finishedCallback cexWatchEnv false none erroredStats).1 = 1 :=
  ⟨(C9_silent_gating cexWatchEnv false okStats "x" rfl).1,
   ((C9_silent_gating cexWatchEnv false okStats "x" rfl).2.1 rfl).1,
   (C9_silent_gating cexWatchEnv false erroredStats "x" rfl).2.2.2 rfl (by decide)⟩

end WebpackWorker
